import Mathlib

/-!
Verification of the weather-prediction core of the repository
(`backend_package/prediction/predict_simple.py` and
`backend_package/prediction/predict.py`), shallowly embedded in Lean 4.

Modelling conventions:
* Python floats are modelled as rationals (`ℚ`); `min`/`max`/comparisons are
  exact in both worlds, and the clamping / bucket claims are insensitive to
  binary rounding of products.
* Python `round(x, n)` (round-half-to-even on the decimal value) is modelled
  by `pyRound`.
* A calendar date is modelled by its day number (`ℤ`): `pandas` date
  subtraction `(end - start).days` becomes integer subtraction, and the
  `while current <= end` day loop becomes the list `dateSpan`.
* A loaded model artifact (`pickle` dict with `model`, `scaler`,
  `feature_names`) is opaque: the composition
  `model.predict(scaler.transform(_generate_features(date)))[0]` is a pure
  function of the date only, so an `Artifact` is a function `ℤ → ℚ` from the
  day number to the raw scalar prediction.
* Python exceptions are the inductive `PyError`; `predict_hourly` returns
  `Except PyError HourlyRec`.  Subscripting `None` (the registry's marker for
  a model that failed to load) raises `TypeError` in Python, modelled by
  `PyError.typeError`.
-/

/-- Python round-half-to-even of a rational to an integer, as used by
`round`: ties (fractional part exactly 1/2) go to the even neighbour. -/
def roundHalfEven (q : ℚ) : ℤ :=
  if q - ⌊q⌋ < 1/2 then ⌊q⌋
  else if 1/2 < q - ⌊q⌋ then ⌊q⌋ + 1
  else if ⌊q⌋ % 2 = 0 then ⌊q⌋ else ⌊q⌋ + 1

/-- Python `round(q, n)`: round to `n` decimal digits, ties to even. -/
def pyRound (q : ℚ) (n : ℕ) : ℚ :=
  (roundHalfEven (q * 10 ^ n) : ℚ) / 10 ^ n

/-- `roundHalfEven` never overshoots an integer upper bound. -/
theorem roundHalfEven_le (q : ℚ) (m : ℤ) (h : q ≤ (m : ℚ)) :
    roundHalfEven q ≤ m := by
  have hfl : ⌊q⌋ ≤ m := by
    have := Int.floor_le_floor h
    simpa using this
  have hstep : ¬ q - ⌊q⌋ < 1/2 → ⌊q⌋ + 1 ≤ m := by
    intro hr
    rcases eq_or_lt_of_le hfl with heq | hlt
    · exfalso
      apply hr
      have hq : q ≤ (⌊q⌋ : ℚ) := by rw [heq]; exact_mod_cast h
      have : q - ⌊q⌋ ≤ 0 := by linarith
      linarith
    · omega
  unfold roundHalfEven
  split_ifs with h1 h2 h3
  · exact hfl
  · exact hstep h1
  · exact hfl
  · exact hstep h1

/-- `roundHalfEven` never undershoots an integer lower bound. -/
theorem le_roundHalfEven (q : ℚ) (m : ℤ) (h : (m : ℚ) ≤ q) :
    m ≤ roundHalfEven q := by
  have hfl : m ≤ ⌊q⌋ := Int.le_floor.mpr h
  unfold roundHalfEven
  split_ifs <;> omega

/-- `pyRound` of a value at most an integer bound stays at most that bound. -/
theorem pyRound_le_intCast (q : ℚ) (n : ℕ) (m : ℤ) (h : q ≤ (m : ℚ)) :
    pyRound q n ≤ (m : ℚ) := by
  have hpow : (0 : ℚ) < 10 ^ n := by positivity
  have h1 : q * 10 ^ n ≤ ((m : ℚ) * 10 ^ n) :=
    mul_le_mul_of_nonneg_right h hpow.le
  have h2 : roundHalfEven (q * 10 ^ n) ≤ m * 10 ^ n := by
    apply roundHalfEven_le
    push_cast
    exact h1
  unfold pyRound
  rw [div_le_iff₀ hpow]
  exact_mod_cast h2

/-- `pyRound` of a value at least an integer bound stays at least that bound. -/
theorem intCast_le_pyRound (q : ℚ) (n : ℕ) (m : ℤ) (h : (m : ℚ) ≤ q) :
    (m : ℚ) ≤ pyRound q n := by
  have hpow : (0 : ℚ) < 10 ^ n := by positivity
  have h1 : ((m : ℚ) * 10 ^ n) ≤ q * 10 ^ n :=
    mul_le_mul_of_nonneg_right h hpow.le
  have h2 : m * 10 ^ n ≤ roundHalfEven (q * 10 ^ n) := by
    apply le_roundHalfEven
    push_cast
    exact h1
  unfold pyRound
  rw [le_div_iff₀ hpow]
  exact_mod_cast h2

/-- Nonnegativity is preserved by `pyRound`. -/
theorem pyRound_nonneg (q : ℚ) (n : ℕ) (h : 0 ≤ q) : 0 ≤ pyRound q n := by
  have := intCast_le_pyRound q n 0 (by exact_mod_cast h)
  simpa using this

/-- An upper bound of 100 is preserved by `pyRound`. -/
theorem pyRound_le_hundred (q : ℚ) (n : ℕ) (h : q ≤ 100) :
    pyRound q n ≤ 100 := by
  have := pyRound_le_intCast q n 100 (by exact_mod_cast h)
  simpa using this

/-- A loaded model artifact: the raw scalar prediction is a pure function of
the date (`_generate_features` is deterministic in the date, and the pickled
scaler/model are fixed once loaded). -/
structure Artifact where
  pred : ℤ → ℚ

/-- The model registry dictionary built by `_load_models`: each of the five
keys maps to the loaded artifact or to `None` when loading failed. -/
structure Models where
  temperature : Option Artifact
  precipitation : Option Artifact
  humidity : Option Artifact
  cloud : Option Artifact
  wind : Option Artifact

/-- Python exception classes that can surface from the prediction core. -/
inductive PyError where
  | valueError
  | typeError
deriving DecidableEq, Repr

/-- The `time_period` strings of `predict_simple.predict_hourly`. -/
inductive TimePeriod where
  | morning
  | afternoon
  | evening
  | night
deriving DecidableEq, Repr

/-- String form of a time period, as placed in the returned dict. -/
def TimePeriod.toStr : TimePeriod → String
  | TimePeriod.morning => "morning"
  | TimePeriod.afternoon => "afternoon"
  | TimePeriod.evening => "evening"
  | TimePeriod.night => "night"

/-- `celsius_to_fahrenheit` from `predict_simple.py`. -/
def celsiusToFahrenheit (c : ℚ) : ℚ := (c * 9 / 5) + 32

/-- The `time_period` half of the time-based `if/elif/else` chain of
`predict_simple.predict_hourly` (lines 227-238). -/
def timePeriod (hour : ℤ) : TimePeriod :=
  if 6 ≤ hour ∧ hour < 12 then TimePeriod.morning
  else if 12 ≤ hour ∧ hour < 18 then TimePeriod.afternoon
  else if 18 ≤ hour ∧ hour < 21 then TimePeriod.evening
  else TimePeriod.night

/-- The `feels_like_adjustment` half of the same `if/elif/else` chain. -/
def feelsLikeAdjustment (hour : ℤ) : ℚ :=
  if 6 ≤ hour ∧ hour < 12 then -1
  else if 12 ≤ hour ∧ hour < 18 then 3
  else if 18 ≤ hour ∧ hour < 21 then 1
  else -2

/-- `feels_like_f = temp_f + feels_like_adjustment`. -/
def feelsLike (temp_model : Artifact) (date hour : ℤ) : ℚ :=
  celsiusToFahrenheit (temp_model.pred date) + feelsLikeAdjustment hour

/-- `precip_mm = max(0, model.predict(...))` before the time adjustment. -/
def rawPrecip (m : Artifact) (date : ℤ) : ℚ := max 0 (m.pred date)

/-- The precipitation block of `predict_simple.predict_hourly` (lines
244-257): default 0.0 without a model, otherwise clamp the raw prediction to
be nonnegative and apply the time-of-day multipliers. -/
def precipValue (models : Models) (date hour : ℤ) : ℚ :=
  match models.precipitation with
  | none => 0
  | some m =>
    if 15 ≤ hour ∧ hour ≤ 18 then rawPrecip m date * 1.3
    else if 5 ≤ hour ∧ hour ≤ 8 then rawPrecip m date * 1.1
    else if 21 ≤ hour ∨ hour ≤ 3 then rawPrecip m date * 0.8
    else rawPrecip m date

/-- `humidity_percent = min(100, max(0, vapor_pressure / 16.5))` before the
time adjustment. -/
def rawHumidity (m : Artifact) (date : ℤ) : ℚ :=
  min 100 (max 0 (m.pred date / 16.5))

/-- The humidity block of `predict_simple.predict_hourly` (lines 261-278):
default 50.0 without a model, otherwise convert vapor pressure and apply the
time-of-day adjustments. -/
def humidityValue (models : Models) (date hour : ℤ) : ℚ :=
  match models.humidity with
  | none => 50
  | some m =>
    if 5 ≤ hour ∧ hour ≤ 9 then min 100 (rawHumidity m date * 1.15)
    else if 21 ≤ hour ∨ hour ≤ 5 then min 100 (rawHumidity m date * 1.1)
    else if 13 ≤ hour ∧ hour ≤ 17 then max 20 (rawHumidity m date * 0.9)
    else rawHumidity m date

/-- The cloud-cover block of `predict_simple.predict_hourly` (lines 280-287):
default 50.0 without a model, otherwise offset by 32.5 and clamp to [0,100]. -/
def cloudValue (models : Models) (date : ℤ) : ℚ :=
  match models.cloud with
  | none => 50
  | some m => min 100 (max 0 (m.pred date + 32.5))

/-- `wind_speed_ms = max(0, (wind_proxy - 330) * 1.3)` before the time
adjustment. -/
def rawWind (m : Artifact) (date : ℤ) : ℚ := max 0 ((m.pred date - 330) * 1.3)

/-- The wind block of `predict_simple.predict_hourly` (lines 289-302):
default 3.0 m/s without a model, otherwise rescale the proxy, clamp to ≥ 0
and apply the time-of-day multipliers. -/
def windValue (models : Models) (date hour : ℤ) : ℚ :=
  match models.wind with
  | none => 3
  | some m =>
    if 12 ≤ hour ∧ hour ≤ 17 then rawWind m date * 1.2
    else if 21 ≤ hour ∨ hour ≤ 5 then rawWind m date * 0.8
    else rawWind m date

/-- The `feel` word chosen from `feels_like_f` (lines 307-318). -/
def feelWord (feels_like_f : ℚ) : String :=
  if feels_like_f < 32 then "Freezing"
  else if feels_like_f < 50 then "Cold"
  else if feels_like_f < 65 then "Cool"
  else if feels_like_f < 75 then "Comfortable"
  else if feels_like_f < 85 then "Warm"
  else "Hot"

/-- The `conditions` list built from the unrounded precipitation, cloud cover
and wind speed (lines 321-335). -/
def conditions (precip_mm cloud_cover_percent wind_speed_mph : ℚ) :
    List String :=
  (if precip_mm > 5 then ["rainy"]
   else if precip_mm > 1 then ["light rain"] else [])
  ++ (if cloud_cover_percent > 75 then ["cloudy"]
      else if cloud_cover_percent > 50 then ["partly cloudy"]
      else if cloud_cover_percent < 25 then ["clear"] else [])
  ++ (if wind_speed_mph > 20 then ["windy"] else [])

/-- `", ".join(l)`. -/
def joinComma : List String → String
  | [] => ""
  | [s] => s
  | s :: rest => s ++ ", " ++ joinComma rest

/-- `description = f"..." + (f" - ..." if condition_str else "")`. -/
def mkDescription (feel : String) (tp : TimePeriod) (conds : List String) :
    String :=
  feel ++ " " ++ tp.toStr ++
    (if joinComma conds = "" then "" else " - " ++ joinComma conds)

/-- The dict returned by `predict_simple.predict_hourly` (lines 340-355).
All numeric fields are rounded exactly as in the source; the unrounded
intermediate values feed the description. -/
structure HourlyRec where
  date : ℤ
  hour : ℤ
  temperature_f : ℚ
  feels_like_f : ℚ
  temperature_c : ℚ
  feels_like_c : ℚ
  precipitation_mm : ℚ
  precipitation_inches : ℚ
  humidity_percent : ℚ
  cloud_cover_percent : ℚ
  wind_speed_mph : ℚ
  wind_speed_ms : ℚ
  time_period : TimePeriod
  description : String
deriving DecidableEq, Repr

/-- Builds the full hourly record once the temperature artifact is known to
be loaded (the body of `predict_simple.predict_hourly` after line 221). -/
def mkHourly (temp_model : Artifact) (models : Models) (date hour : ℤ) :
    HourlyRec where
  date := date
  hour := hour
  temperature_f := pyRound (celsiusToFahrenheit (temp_model.pred date)) 1
  feels_like_f := pyRound (feelsLike temp_model date hour) 1
  temperature_c := pyRound (temp_model.pred date) 1
  feels_like_c := pyRound ((feelsLike temp_model date hour - 32) * 5 / 9) 1
  precipitation_mm := pyRound (precipValue models date hour) 2
  precipitation_inches := pyRound (precipValue models date hour / 25.4) 3
  humidity_percent := pyRound (humidityValue models date hour) 1
  cloud_cover_percent := pyRound (cloudValue models date) 1
  wind_speed_mph := pyRound (windValue models date hour * 2.237) 1
  wind_speed_ms := pyRound (windValue models date hour) 1
  time_period := timePeriod hour
  description := mkDescription (feelWord (feelsLike temp_model date hour))
    (timePeriod hour)
    (conditions (precipValue models date hour) (cloudValue models date)
      (windValue models date hour * 2.237))

/-- `predict_simple.predict_hourly(date, hour)`.  When the temperature entry
of the registry is `None`, the source subscripts `None` at line 221
(`temp_model['feature_names']`), which raises a Python `TypeError`. -/
def predictHourly (models : Models) (date hour : ℤ) :
    Except PyError HourlyRec :=
  match models.temperature with
  | none => Except.error PyError.typeError
  | some temp_model => Except.ok (mkHourly temp_model models date hour)

/-- Whether an hourly prediction succeeded. -/
def exceptIsOk : Except PyError HourlyRec → Bool
  | Except.ok _ => true
  | Except.error _ => false

/-- The lazy load-once behaviour of `_load_models`: the global `_MODELS`
cache is filled from disk on first call and returned unchanged afterwards.
`disk` stands for the fixed contents of the artifact files. -/
def loadModels (disk : Models) (cache : Option Models) :
    Models × Option Models :=
  match cache with
  | some m => (m, some m)
  | none => (disk, some disk)

/-- `predict_hourly` including its `_load_models()` call: an explicit state
transformer on the cache. -/
def predictHourlyStateful (disk : Models) (cache : Option Models)
    (date hour : ℤ) : Except PyError HourlyRec × Option Models :=
  ((predictHourly (loadModels disk cache).1 date hour),
   (loadModels disk cache).2)

/-- Python `sum(l)` over rationals. -/
def listSum (l : List ℚ) : ℚ := l.foldl (fun a b => a + b) 0

/-- `np.mean(l)` = sum divided by length (only used on nonempty lists). -/
def listMean (l : List ℚ) : ℚ := listSum l / (l.length : ℚ)

/-- Python `min(l)` on a nonempty list (`0` is a never-reached placeholder:
every call site is guarded by a nonemptiness check, as in the source). -/
def listMin : List ℚ → ℚ
  | [] => 0
  | x :: xs => xs.foldl min x

/-- Python `max(l)` on a nonempty list (same placeholder convention). -/
def listMax : List ℚ → ℚ
  | [] => 0
  | x :: xs => xs.foldl max x

/-- The dict appended per date by `predict_simple.predict_daily_range`
(lines 413-427). -/
structure DailyRec where
  date : ℤ
  avg_temperature_f : ℚ
  avg_feels_like_f : ℚ
  avg_temperature_c : ℚ
  avg_feels_like_c : ℚ
  total_precipitation_mm : ℚ
  total_precipitation_inches : ℚ
  avg_humidity_percent : ℚ
  avg_cloud_cover_percent : ℚ
  avg_wind_speed_mph : ℚ
  avg_wind_speed_ms : ℚ
  min_temp_f : ℚ
  max_temp_f : ℚ
deriving DecidableEq, Repr

/-- The reduction of one date's successful hourly predictions to its daily
record (lines 402-427): `np.mean` for the averaged fields, `sum` for the two
precipitation totals, `min`/`max` for the temperature extremes. -/
def aggregateDaily (date : ℤ) (preds : List HourlyRec) : DailyRec where
  date := date
  avg_temperature_f :=
    pyRound (listMean (preds.map (fun p => p.temperature_f))) 1
  avg_feels_like_f :=
    pyRound (listMean (preds.map (fun p => p.feels_like_f))) 1
  avg_temperature_c :=
    pyRound (listMean (preds.map (fun p => p.temperature_c))) 1
  avg_feels_like_c :=
    pyRound (listMean (preds.map (fun p => p.feels_like_c))) 1
  total_precipitation_mm :=
    pyRound (listSum (preds.map (fun p => p.precipitation_mm))) 2
  total_precipitation_inches :=
    pyRound (listSum (preds.map (fun p => p.precipitation_inches))) 3
  avg_humidity_percent :=
    pyRound (listMean (preds.map (fun p => p.humidity_percent))) 1
  avg_cloud_cover_percent :=
    pyRound (listMean (preds.map (fun p => p.cloud_cover_percent))) 1
  avg_wind_speed_mph :=
    pyRound (listMean (preds.map (fun p => p.wind_speed_mph))) 1
  avg_wind_speed_ms :=
    pyRound (listMean (preds.map (fun p => p.wind_speed_ms))) 1
  min_temp_f := pyRound (listMin (preds.map (fun p => p.temperature_f))) 1
  max_temp_f := pyRound (listMax (preds.map (fun p => p.temperature_f))) 1

/-- The fixed representative hours sampled per date (line 392). -/
def sampleHours : List ℤ := [0, 6, 12, 18]

/-- One date of the range loop: try `predict_hourly` at each sample hour,
dropping hours that raise (the `try/except: continue`, lines 393-398); the
date is kept only when at least one hour succeeded (the
`if hourly_predictions:` guard, line 400). -/
def predictDay (hourly : ℤ → ℤ → Except PyError HourlyRec) (date : ℤ) :
    Option DailyRec :=
  let hourly_predictions :=
    sampleHours.filterMap (fun h => (hourly date h).toOption)
  if hourly_predictions.isEmpty then none
  else some (aggregateDaily date hourly_predictions)

/-- The dates visited by `while current <= end` stepping one day at a time:
empty when the end is before the start. -/
def dateSpan (start endD : ℤ) : List ℤ :=
  (List.range (endD - start + 1).toNat).map (fun i => start + i)

/-- `predict_simple.predict_daily_range` (lines 357-431), parameterized by
the hourly predictor it invokes: validate the span, then fold the per-date
results (dates whose every sampled hour failed are dropped). -/
def predictDailyRangeWith (hourly : ℤ → ℤ → Except PyError HourlyRec)
    (start endD : ℤ) : Except PyError (List DailyRec) :=
  if endD - start > 365 then Except.error PyError.valueError
  else Except.ok ((dateSpan start endD).filterMap (predictDay hourly))

/-- `predict_simple.predict_daily_range` proper: the loop body calls
`predict_hourly` against the loaded registry. -/
def predictDailyRange (models : Models) (start endD : ℤ) :
    Except PyError (List DailyRec) :=
  predictDailyRangeWith (predictHourly models) start endD

namespace Predict

/-- The tuned-weights dictionary of `predict.py` (`_load_resources`). -/
structure Weights where
  temp_morning_offset : ℚ
  temp_afternoon_offset : ℚ
  temp_evening_offset : ℚ
  temp_night_offset : ℚ
  temp_cloud_day_factor : ℚ
  temp_cloud_night_factor : ℚ
  precip_morning_mult : ℚ
  precip_afternoon_mult : ℚ
  precip_night_mult : ℚ
  humidity_vp_to_rh_factor : ℚ
  cloud_baseline_offset : ℚ
  wind_proxy_scale : ℚ

/-- The default weights of `predict.py` lines 86-99, used when
`tuned_weights.pkl` is absent. -/
def defaultWeights : Weights where
  temp_morning_offset := -5.8419
  temp_afternoon_offset := -2.3419
  temp_evening_offset := -3.8419
  temp_night_offset := -6.3419
  temp_cloud_day_factor := -1.0
  temp_cloud_night_factor := 1.5
  precip_morning_mult := 1.15
  precip_afternoon_mult := 1.25
  precip_night_mult := 0.85
  humidity_vp_to_rh_factor := 16.4476
  cloud_baseline_offset := 32.5430
  wind_proxy_scale := 1.3176

/-- The precipitation time-multiplier block of `predict.py.predict_hourly`
(lines 181-190): pick the bucket multiplier, then `precip = max(0, precip)`. -/
def precipCorrected (w : Weights) (base_precip : ℚ) (hour : ℤ) : ℚ :=
  max 0
    (if 5 ≤ hour ∧ hour ≤ 8 then base_precip * w.precip_morning_mult
     else if 15 ≤ hour ∧ hour ≤ 18 then base_precip * w.precip_afternoon_mult
     else if 21 ≤ hour ∨ hour ≤ 3 then base_precip * w.precip_night_mult
     else base_precip)

end Predict

/-- The precipitation value before rounding is never negative. -/
theorem precipValue_nonneg (models : Models) (date hour : ℤ) :
    0 ≤ precipValue models date hour := by
  unfold precipValue
  cases models.precipitation with
  | none => norm_num
  | some m =>
    have hp : 0 ≤ rawPrecip m date := le_max_left 0 _
    split_ifs <;> nlinarith [hp]

/-- The humidity value before rounding lies in [0, 100]. -/
theorem humidityValue_bounds (models : Models) (date hour : ℤ) :
    0 ≤ humidityValue models date hour ∧ humidityValue models date hour ≤ 100 := by
  unfold humidityValue
  cases models.humidity with
  | none => norm_num
  | some m =>
    have h0 : 0 ≤ rawHumidity m date :=
      le_min (by norm_num) (le_max_left 0 _)
    have h100 : rawHumidity m date ≤ 100 := min_le_left _ _
    split_ifs
    · exact ⟨le_min (by norm_num) (by nlinarith), min_le_left _ _⟩
    · exact ⟨le_min (by norm_num) (by nlinarith), min_le_left _ _⟩
    · constructor
      · exact le_trans (by norm_num) (le_max_left 20 _)
      · exact max_le (by norm_num) (by nlinarith)
    · exact ⟨h0, h100⟩

/-- The cloud-cover value before rounding lies in [0, 100]. -/
theorem cloudValue_bounds (models : Models) (date : ℤ) :
    0 ≤ cloudValue models date ∧ cloudValue models date ≤ 100 := by
  unfold cloudValue
  cases models.cloud with
  | none => norm_num
  | some m =>
    exact ⟨le_min (by norm_num) (le_max_left 0 _), min_le_left _ _⟩

/-- The wind value before rounding is never negative. -/
theorem windValue_nonneg (models : Models) (date hour : ℤ) :
    0 ≤ windValue models date hour := by
  unfold windValue
  cases models.wind with
  | none => norm_num
  | some m =>
    have hw : 0 ≤ rawWind m date := le_max_left 0 _
    split_ifs <;> nlinarith [hw]

/-- C2: for every registry (hence every finite raw model prediction,
pathological values included), date and hour, a successful `predict_hourly`
record has humidity and cloud cover in [0,100] and nonnegative wind speed
and precipitation, in every unit reported. -/
theorem predictHourly_clamping (models : Models) (date hour : ℤ)
    (rec : HourlyRec)
    (hok : predictHourly models date hour = Except.ok rec) :
    0 ≤ rec.humidity_percent ∧ rec.humidity_percent ≤ 100
  ∧ 0 ≤ rec.cloud_cover_percent ∧ rec.cloud_cover_percent ≤ 100
  ∧ 0 ≤ rec.wind_speed_ms ∧ 0 ≤ rec.wind_speed_mph
  ∧ 0 ≤ rec.precipitation_mm ∧ 0 ≤ rec.precipitation_inches := by
  cases hm : models.temperature with
  | none => rw [predictHourly, hm] at hok; exact absurd hok (by simp)
  | some t =>
    rw [predictHourly, hm] at hok
    have hrec : rec = mkHourly t models date hour := by
      cases hok; rfl
    subst hrec
    refine ⟨?_, ?_, ?_, ?_, ?_, ?_, ?_, ?_⟩
    · exact pyRound_nonneg _ _ (humidityValue_bounds models date hour).1
    · exact pyRound_le_hundred _ _ (humidityValue_bounds models date hour).2
    · exact pyRound_nonneg _ _ (cloudValue_bounds models date).1
    · exact pyRound_le_hundred _ _ (cloudValue_bounds models date).2
    · exact pyRound_nonneg _ _ (windValue_nonneg models date hour)
    · exact pyRound_nonneg _ _ (by nlinarith [windValue_nonneg models date hour])
    · exact pyRound_nonneg _ _ (precipValue_nonneg models date hour)
    · exact pyRound_nonneg _ _
        (div_nonneg (precipValue_nonneg models date hour) (by norm_num))

/-- A registry with deliberately pathological raw predictions (large,
negative), used to instantiate universally quantified theorems. -/
def wModels : Models where
  temperature := some ⟨fun _ => 10⟩
  precipitation := some ⟨fun _ => -5⟩
  humidity := some ⟨fun _ => -500⟩
  cloud := some ⟨fun _ => 1000000⟩
  wind := some ⟨fun _ => -1000⟩

/-- The record `predict_hourly` produces from `wModels` at hour 14. -/
def wRec : HourlyRec where
  date := 0
  hour := 14
  temperature_f := 50
  feels_like_f := 53
  temperature_c := 10
  feels_like_c := 11.7
  precipitation_mm := 0
  precipitation_inches := 0
  humidity_percent := 20
  cloud_cover_percent := 100
  wind_speed_mph := 0
  wind_speed_ms := 0
  time_period := TimePeriod.afternoon
  description := "Cool afternoon - cloudy"

/-- Decidable equality of `Except` results, used to evaluate the embedded
functions on concrete inputs. -/
instance exceptDecEq {ε α : Type} [DecidableEq ε] [DecidableEq α] :
    DecidableEq (Except ε α) := fun x y =>
  match x, y with
  | Except.ok a, Except.ok b =>
    if h : a = b then Decidable.isTrue (by rw [h])
    else Decidable.isFalse (by intro hc; cases hc; exact h rfl)
  | Except.error a, Except.error b =>
    if h : a = b then Decidable.isTrue (by rw [h])
    else Decidable.isFalse (by intro hc; cases hc; exact h rfl)
  | Except.ok _, Except.error _ => Decidable.isFalse (by intro hc; cases hc)
  | Except.error _, Except.ok _ => Decidable.isFalse (by intro hc; cases hc)

/-- With a loaded temperature artifact, `predict_hourly` returns the built
record. -/
theorem predictHourly_eq_ok (models : Models) (t : Artifact) (date hour : ℤ)
    (h : models.temperature = some t) :
    predictHourly models date hour = Except.ok (mkHourly t models date hour) := by
  unfold predictHourly
  rw [h]

/-- Evaluation of `predict_hourly` on the pathological registry at hour 14:
the computed record is exactly `wRec`. -/
theorem wModels_eval : predictHourly wModels 0 14 = Except.ok wRec := by
  rw [predictHourly_eq_ok wModels (Artifact.mk (fun _ => 10)) 0 14 rfl]
  congr 1
  norm_num [mkHourly, wRec, wModels, celsiusToFahrenheit, feelsLike,
    feelsLikeAdjustment, timePeriod, precipValue, rawPrecip, humidityValue,
    rawHumidity, cloudValue, windValue, rawWind, feelWord, conditions,
    joinComma, mkDescription, TimePeriod.toStr, pyRound, roundHalfEven]
  decide

/-- Witness for C2 at a registry whose raw predictions are pathological. -/
theorem predictHourly_clamping_witness :
    0 ≤ wRec.humidity_percent ∧ wRec.humidity_percent ≤ 100
  ∧ 0 ≤ wRec.cloud_cover_percent ∧ wRec.cloud_cover_percent ≤ 100
  ∧ 0 ≤ wRec.wind_speed_ms ∧ 0 ≤ wRec.wind_speed_mph
  ∧ 0 ≤ wRec.precipitation_mm ∧ 0 ≤ wRec.precipitation_inches :=
  predictHourly_clamping wModels 0 14 wRec wModels_eval

/-- A registry whose temperature artifact failed to load. -/
def noTempModels : Models where
  temperature := none
  precipitation := some ⟨fun _ => 2⟩
  humidity := some ⟨fun _ => 800⟩
  cloud := some ⟨fun _ => 30⟩
  wind := some ⟨fun _ => 333⟩

/-- A registry where only the temperature artifact loaded. -/
def onlyTempModels : Models where
  temperature := some ⟨fun _ => 10⟩
  precipitation := none
  humidity := none
  cloud := none
  wind := none

/-- Counterexample to C3 as stated: with the temperature artifact missing,
`predict_hourly` subscripts `None` and dies with a `TypeError`, which is not
a `ValueError`-class error. -/
theorem predictHourly_missing_temp_counterexample :
    predictHourly noTempModels 0 12 = Except.error PyError.typeError
  ∧ predictHourly noTempModels 0 12 ≠ Except.error PyError.valueError := by
  refine ⟨rfl, ?_⟩
  intro h
  rw [show predictHourly noTempModels 0 12 = Except.error PyError.typeError
    from rfl] at h
  exact PyError.noConfusion (Except.error.inj h)

/-- C3 (amended): a missing temperature artifact makes `predict_hourly` fail
with a `TypeError` (subscripting `None`), not a `ValueError`; and when the
temperature model is loaded but precipitation, humidity, cloud or wind is
unavailable, the returned record carries the fixed defaults 0.0 mm,
50.0 %, 50.0 % and 3.0 m/s respectively. -/
theorem predictHourly_fallbacks (models : Models) (date hour : ℤ) :
    (models.temperature = none →
      predictHourly models date hour = Except.error PyError.typeError)
  ∧ (∀ rec, predictHourly models date hour = Except.ok rec →
      (models.precipitation = none → rec.precipitation_mm = 0)
    ∧ (models.humidity = none → rec.humidity_percent = 50)
    ∧ (models.cloud = none → rec.cloud_cover_percent = 50)
    ∧ (models.wind = none → rec.wind_speed_ms = 3)) := by
  constructor
  · intro h
    unfold predictHourly
    rw [h]
  · intro rec hok
    cases hm : models.temperature with
    | none => rw [predictHourly, hm] at hok; exact absurd hok (by simp)
    | some t =>
      rw [predictHourly_eq_ok models t date hour hm] at hok
      have hrec : rec = mkHourly t models date hour := by cases hok; rfl
      subst hrec
      refine ⟨?_, ?_, ?_, ?_⟩ <;> intro hn
      · show pyRound (precipValue models date hour) 2 = 0
        unfold precipValue
        rw [hn]
        norm_num [pyRound, roundHalfEven]
      · show pyRound (humidityValue models date hour) 1 = 50
        unfold humidityValue
        rw [hn]
        norm_num [pyRound, roundHalfEven]
      · show pyRound (cloudValue models date) 1 = 50
        unfold cloudValue
        rw [hn]
        norm_num [pyRound, roundHalfEven]
      · show pyRound (windValue models date hour) 1 = 3
        unfold windValue
        rw [hn]
        norm_num [pyRound, roundHalfEven]

/-- The record `predict_hourly` produces from `onlyTempModels` at hour 12. -/
def wRec3 : HourlyRec where
  date := 0
  hour := 12
  temperature_f := 50
  feels_like_f := 53
  temperature_c := 10
  feels_like_c := 11.7
  precipitation_mm := 0
  precipitation_inches := 0
  humidity_percent := 50
  cloud_cover_percent := 50
  wind_speed_mph := 6.7
  wind_speed_ms := 3
  time_period := TimePeriod.afternoon
  description := "Cool afternoon"

/-- Evaluation of `predict_hourly` on the temperature-only registry. -/
theorem onlyTempModels_eval :
    predictHourly onlyTempModels 0 12 = Except.ok wRec3 := by
  rw [predictHourly_eq_ok onlyTempModels (Artifact.mk (fun _ => 10)) 0 12 rfl]
  congr 1
  norm_num [mkHourly, wRec3, onlyTempModels, celsiusToFahrenheit, feelsLike,
    feelsLikeAdjustment, timePeriod, precipValue, rawPrecip, humidityValue,
    rawHumidity, cloudValue, windValue, rawWind, feelWord, conditions,
    joinComma, mkDescription, TimePeriod.toStr, pyRound, roundHalfEven]
  decide

/-- Witness for C3 (amended): the missing-temperature failure and all four
defaults observed at concrete registries. -/
theorem predictHourly_fallbacks_witness :
    predictHourly noTempModels 0 12 = Except.error PyError.typeError
  ∧ wRec3.precipitation_mm = 0 ∧ wRec3.humidity_percent = 50
  ∧ wRec3.cloud_cover_percent = 50 ∧ wRec3.wind_speed_ms = 3 := by
  have h2 := (predictHourly_fallbacks onlyTempModels 0 12).2 wRec3
    onlyTempModels_eval
  exact ⟨(predictHourly_fallbacks noTempModels 0 12).1 rfl,
    h2.1 rfl, h2.2.1 rfl, h2.2.2.1 rfl, h2.2.2.2 rfl⟩

/-- C1: `predict_hourly` is deterministic.  With the lazy-load cache made
explicit, running the operation a second time from the state left by the
first run returns the identical record (or identical error) and leaves the
cache untouched: the only state effect is the load-once of `_MODELS`. -/
theorem predictHourly_deterministic (disk : Models) (cache : Option Models)
    (date hour : ℤ) :
    (predictHourlyStateful disk
        (predictHourlyStateful disk cache date hour).2 date hour).1
      = (predictHourlyStateful disk cache date hour).1
  ∧ (predictHourlyStateful disk
        (predictHourlyStateful disk cache date hour).2 date hour).2
      = (predictHourlyStateful disk cache date hour).2 := by
  cases cache <;> exact ⟨rfl, rfl⟩

/-- C4: a span of more than 365 days is rejected with a `ValueError` before
any date is processed — the result is the error alone, never a partially
built sequence. -/
theorem predictDailyRange_span_invalid (models : Models) (start endD : ℤ)
    (h : endD - start > 365) :
    predictDailyRange models start endD = Except.error PyError.valueError := by
  unfold predictDailyRange predictDailyRangeWith
  rw [if_pos h]

/-- Witness for C4 on a 366-day span. -/
theorem predictDailyRange_span_invalid_witness :
    (366 : ℤ) - 0 > 365
  ∧ predictDailyRange wModels 0 366 = Except.error PyError.valueError :=
  ⟨by norm_num, predictDailyRange_span_invalid wModels 0 366 (by norm_num)⟩

/-- C10: when the end date is strictly before the start date, the span check
`(end - start).days > 365` is false, the day loop never runs, and the result
is an empty sequence with no error. -/
theorem predictDailyRange_end_before_start (models : Models) (start endD : ℤ)
    (h : endD < start) :
    predictDailyRange models start endD = Except.ok [] := by
  unfold predictDailyRange predictDailyRangeWith
  rw [if_neg (by omega)]
  congr 1
  unfold dateSpan
  rw [show (endD - start + 1).toNat = 0 by omega]
  rfl

/-- Witness for C10 on an inverted span. -/
theorem predictDailyRange_end_before_start_witness :
    (3 : ℤ) < 5 ∧ predictDailyRange wModels 5 3 = Except.ok [] :=
  ⟨by norm_num, predictDailyRange_end_before_start wModels 5 3 (by norm_num)⟩

/-- C5: the time-of-day buckets are half-open and partition 0-23: hour 11 is
morning, hour 12 is afternoon, and every hour of the day falls in exactly
the claimed bucket — morning [6,12), afternoon [12,18), evening [18,21),
night [21,24) together with [0,6). -/
theorem timePeriod_partition :
    timePeriod 11 = TimePeriod.morning
  ∧ timePeriod 12 = TimePeriod.afternoon
  ∧ ∀ h : ℕ, h < 24 →
      ((timePeriod (h : ℤ) = TimePeriod.morning ↔ 6 ≤ h ∧ h < 12)
     ∧ (timePeriod (h : ℤ) = TimePeriod.afternoon ↔ 12 ≤ h ∧ h < 18)
     ∧ (timePeriod (h : ℤ) = TimePeriod.evening ↔ 18 ≤ h ∧ h < 21)
     ∧ (timePeriod (h : ℤ) = TimePeriod.night ↔ (21 ≤ h ∧ h < 24) ∨ h < 6)) := by
  refine ⟨by norm_num [timePeriod], by norm_num [timePeriod], ?_⟩
  intro h hh
  interval_cases h <;>
    simp [timePeriod, TimePeriod.morning, TimePeriod.afternoon,
      TimePeriod.evening, TimePeriod.night]

/-- Witness for C5 at the last hour of the day. -/
theorem timePeriod_partition_witness :
    timePeriod ((23 : ℕ) : ℤ) = TimePeriod.night :=
  ((timePeriod_partition.2.2 23 (by norm_num)).2.2.2).mpr
    (Or.inl (by norm_num))

/-- C9: `predict_hourly` never validates the hour: with a loaded temperature
artifact it succeeds for every integer hour (negative and ≥ 24 included),
and every hour outside the morning/afternoon/evening guards lands in the
night bucket of the final `else`. -/
theorem predictHourly_no_hour_validation (models : Models) (date hour : ℤ)
    (t : Artifact) (ht : models.temperature = some t) :
    exceptIsOk (predictHourly models date hour) = true
  ∧ (hour < 6 ∨ 21 ≤ hour → timePeriod hour = TimePeriod.night) := by
  constructor
  · rw [predictHourly_eq_ok models t date hour ht]
    rfl
  · intro hh
    unfold timePeriod
    rw [if_neg (by omega), if_neg (by omega), if_neg (by omega)]

/-- Witness for C9 at the out-of-range hour 100. -/
theorem predictHourly_no_hour_validation_witness :
    exceptIsOk (predictHourly wModels 0 100) = true
  ∧ timePeriod 100 = TimePeriod.night :=
  ⟨(predictHourly_no_hour_validation wModels 0 100
      (Artifact.mk (fun _ => 10)) rfl).1,
   (predictHourly_no_hour_validation wModels 0 100
      (Artifact.mk (fun _ => 10)) rfl).2 (Or.inr (by norm_num))⟩

/-- A one-day span visits exactly its one date. -/
theorem dateSpan_self (d : ℤ) : dateSpan d d = [d] := by
  unfold dateSpan
  rw [show (d - d + 1).toNat = 1 by omega]
  show [d + ((0 : ℕ) : ℤ)] = [d]
  norm_num

/-- C6: for a date whose four sampled hours all succeed, the range
aggregator consults the hourly predictor at exactly the hours 0, 6, 12 and
18, and reduces them with the arithmetic mean for temperature, feels-like,
humidity, cloud cover and wind speed, the sum for precipitation, and the
minimum/maximum of the sampled temperatures. -/
theorem predictDailyRange_aggregation
    (hourly : ℤ → ℤ → Except PyError HourlyRec) (d : ℤ)
    (r0 r6 r12 r18 : HourlyRec)
    (h0 : hourly d 0 = Except.ok r0) (h6 : hourly d 6 = Except.ok r6)
    (h12 : hourly d 12 = Except.ok r12) (h18 : hourly d 18 = Except.ok r18) :
    predictDailyRangeWith hourly d d
      = Except.ok [aggregateDaily d [r0, r6, r12, r18]]
  ∧ (aggregateDaily d [r0, r6, r12, r18]).avg_temperature_f
      = pyRound ((r0.temperature_f + r6.temperature_f + r12.temperature_f
          + r18.temperature_f) / 4) 1
  ∧ (aggregateDaily d [r0, r6, r12, r18]).avg_feels_like_f
      = pyRound ((r0.feels_like_f + r6.feels_like_f + r12.feels_like_f
          + r18.feels_like_f) / 4) 1
  ∧ (aggregateDaily d [r0, r6, r12, r18]).avg_humidity_percent
      = pyRound ((r0.humidity_percent + r6.humidity_percent
          + r12.humidity_percent + r18.humidity_percent) / 4) 1
  ∧ (aggregateDaily d [r0, r6, r12, r18]).avg_cloud_cover_percent
      = pyRound ((r0.cloud_cover_percent + r6.cloud_cover_percent
          + r12.cloud_cover_percent + r18.cloud_cover_percent) / 4) 1
  ∧ (aggregateDaily d [r0, r6, r12, r18]).avg_wind_speed_ms
      = pyRound ((r0.wind_speed_ms + r6.wind_speed_ms + r12.wind_speed_ms
          + r18.wind_speed_ms) / 4) 1
  ∧ (aggregateDaily d [r0, r6, r12, r18]).total_precipitation_mm
      = pyRound (r0.precipitation_mm + r6.precipitation_mm
          + r12.precipitation_mm + r18.precipitation_mm) 2
  ∧ (aggregateDaily d [r0, r6, r12, r18]).min_temp_f
      = pyRound (min (min (min r0.temperature_f r6.temperature_f)
          r12.temperature_f) r18.temperature_f) 1
  ∧ (aggregateDaily d [r0, r6, r12, r18]).max_temp_f
      = pyRound (max (max (max r0.temperature_f r6.temperature_f)
          r12.temperature_f) r18.temperature_f) 1 := by
  refine ⟨?_, ?_, ?_, ?_, ?_, ?_, ?_, ?_, ?_⟩
  · unfold predictDailyRangeWith
    rw [if_neg (by omega), dateSpan_self]
    simp [predictDay, sampleHours, h0, h6, h12, h18, Except.toOption]
  · show pyRound (listMean _) 1 = _
    congr 1
    simp [listMean, listSum]
  · show pyRound (listMean _) 1 = _
    congr 1
    simp [listMean, listSum]
  · show pyRound (listMean _) 1 = _
    congr 1
    simp [listMean, listSum]
  · show pyRound (listMean _) 1 = _
    congr 1
    simp [listMean, listSum]
  · show pyRound (listMean _) 1 = _
    congr 1
    simp [listMean, listSum]
  · show pyRound (listSum _) 2 = _
    congr 1
    simp [listSum]
  · rfl
  · rfl

/-- C7: inside the range loop a failing hour is skipped (aggregation runs
over the surviving samples), and a date whose four sampled hours all fail is
dropped from the output without any error surfacing to the caller. -/
theorem predictDailyRange_partial_failure
    (hourly : ℤ → ℤ → Except PyError HourlyRec) (d : ℤ) :
    (∀ e r6 r12 r18, hourly d 0 = Except.error e →
      hourly d 6 = Except.ok r6 → hourly d 12 = Except.ok r12 →
      hourly d 18 = Except.ok r18 →
      predictDailyRangeWith hourly d d
        = Except.ok [aggregateDaily d [r6, r12, r18]])
  ∧ (∀ e0 e6 e12 e18, hourly d 0 = Except.error e0 →
      hourly d 6 = Except.error e6 → hourly d 12 = Except.error e12 →
      hourly d 18 = Except.error e18 →
      predictDailyRangeWith hourly d d = Except.ok []) := by
  constructor
  · intro e r6 r12 r18 h0 h6 h12 h18
    unfold predictDailyRangeWith
    rw [if_neg (by omega), dateSpan_self]
    simp [predictDay, sampleHours, h0, h6, h12, h18, Except.toOption]
  · intro e0 e6 e12 e18 h0 h6 h12 h18
    unfold predictDailyRangeWith
    rw [if_neg (by omega), dateSpan_self]
    simp [predictDay, sampleHours, h0, h6, h12, h18, Except.toOption]

/-- A fixed mock hourly record carrying a chosen temperature. -/
def mockRec (d h : ℤ) (t : ℚ) : HourlyRec where
  date := d
  hour := h
  temperature_f := t
  feels_like_f := t
  temperature_c := t
  feels_like_c := t
  precipitation_mm := 1
  precipitation_inches := 1
  humidity_percent := 50
  cloud_cover_percent := 50
  wind_speed_mph := 5
  wind_speed_ms := 2
  time_period := TimePeriod.morning
  description := "mock"

/-- A mock predictor with temperatures 10, 20, 15, 25 at hours 0, 6, 12, 18. -/
def mockHourly : ℤ → ℤ → Except PyError HourlyRec := fun d h =>
  Except.ok (mockRec d h
    (if h = 0 then 10 else if h = 6 then 20 else if h = 12 then 15 else 25))

/-- Witness for C6: the spec's scenario with temperatures [10, 20, 15, 25]
mean 17.5, min 10, max 25. -/
theorem predictDailyRange_aggregation_witness :
    (aggregateDaily 0 [mockRec 0 0 10, mockRec 0 6 20, mockRec 0 12 15,
        mockRec 0 18 25]).avg_temperature_f = 17.5
  ∧ (aggregateDaily 0 [mockRec 0 0 10, mockRec 0 6 20, mockRec 0 12 15,
        mockRec 0 18 25]).min_temp_f = 10
  ∧ (aggregateDaily 0 [mockRec 0 0 10, mockRec 0 6 20, mockRec 0 12 15,
        mockRec 0 18 25]).max_temp_f = 25 := by
  obtain ⟨h1, h2, h3, h4, h5, hw, h7, h8, h9⟩ :=
    predictDailyRange_aggregation mockHourly 0 (mockRec 0 0 10)
      (mockRec 0 6 20) (mockRec 0 12 15) (mockRec 0 18 25) rfl rfl rfl rfl
  refine ⟨?_, ?_, ?_⟩
  · rw [h2]
    norm_num [mockRec, pyRound, roundHalfEven]
  · rw [h8]
    norm_num [mockRec, min_def, pyRound, roundHalfEven]
  · rw [h9]
    norm_num [mockRec, max_def, pyRound, roundHalfEven]

/-- A mock predictor failing at hour 0 only. -/
def mockFailHour0 : ℤ → ℤ → Except PyError HourlyRec := fun d h =>
  if h = 0 then Except.error PyError.valueError
  else Except.ok (mockRec d h 12)

/-- A mock predictor failing at every hour. -/
def mockFailAll : ℤ → ℤ → Except PyError HourlyRec := fun _ _ =>
  Except.error PyError.valueError

/-- Witness for C7: one failing hour is skipped; four failing hours drop
the date silently. -/
theorem predictDailyRange_partial_failure_witness :
    predictDailyRangeWith mockFailHour0 0 0
      = Except.ok [aggregateDaily 0
          [mockRec 0 6 12, mockRec 0 12 12, mockRec 0 18 12]]
  ∧ predictDailyRangeWith mockFailAll 0 0 = Except.ok [] :=
  ⟨(predictDailyRange_partial_failure mockFailHour0 0).1 PyError.valueError
      (mockRec 0 6 12) (mockRec 0 12 12) (mockRec 0 18 12) rfl rfl rfl rfl,
   (predictDailyRange_partial_failure mockFailAll 0).2 PyError.valueError
      PyError.valueError PyError.valueError PyError.valueError
      rfl rfl rfl rfl⟩

/-- C8: the `predict.py` precipitation correction with the default weights
multiplies by 1.15 on morning hours 5-8, by 1.25 on afternoon hours 15-18,
by 0.85 on night hours (≥ 21 or ≤ 3), leaves every other hour unchanged,
and clamps the result to be nonnegative. -/
theorem precipCorrected_buckets (base : ℚ) (hour : ℤ) :
    ((5 ≤ hour ∧ hour ≤ 8) →
      Predict.precipCorrected Predict.defaultWeights base hour
        = max 0 (base * 1.15))
  ∧ ((15 ≤ hour ∧ hour ≤ 18) →
      Predict.precipCorrected Predict.defaultWeights base hour
        = max 0 (base * 1.25))
  ∧ ((21 ≤ hour ∨ hour ≤ 3) →
      Predict.precipCorrected Predict.defaultWeights base hour
        = max 0 (base * 0.85))
  ∧ (¬(5 ≤ hour ∧ hour ≤ 8) → ¬(15 ≤ hour ∧ hour ≤ 18) →
      ¬(21 ≤ hour ∨ hour ≤ 3) →
      Predict.precipCorrected Predict.defaultWeights base hour = max 0 base)
  ∧ 0 ≤ Predict.precipCorrected Predict.defaultWeights base hour := by
  refine ⟨?_, ?_, ?_, ?_, le_max_left 0 _⟩
  · intro h
    unfold Predict.precipCorrected
    rw [if_pos h]
    simp [Predict.defaultWeights]
  · intro h
    unfold Predict.precipCorrected
    rw [if_neg (by omega), if_pos h]
    simp [Predict.defaultWeights]
  · intro h
    unfold Predict.precipCorrected
    rw [if_neg (by omega), if_neg (by omega), if_pos h]
    simp [Predict.defaultWeights]
  · intro h1 h2 h3
    unfold Predict.precipCorrected
    rw [if_neg h1, if_neg h2, if_neg h3]

/-- Witness for C8 in the morning bucket with a negative base prediction. -/
theorem precipCorrected_buckets_witness :
    ((5 : ℤ) ≤ 6 ∧ (6 : ℤ) ≤ 8)
  ∧ Predict.precipCorrected Predict.defaultWeights (-2) 6
      = max 0 ((-2) * 1.15) :=
  ⟨by norm_num, (precipCorrected_buckets (-2) 6).1 (by norm_num)⟩
